import Mathlib

/-
Shallow embedding of the Smart-Traffic repository's simulation core:
  - docker/ml-service/mock_ml_service.py   (predict_traffic, predict, batch_predict)
  - scripts/sample-data-generator.py       (generate_traffic_density_by_hour,
    generate_vehicle_count, generate_average_speed, generate_traffic_data)
Confidences and random draws are rationals; the randomness stream is passed
explicitly, one field per call site of the Python random module.
-/

namespace SmartTraffic

inductive TrafficDensity
  | LOW
  | MODERATE
  | HIGH
  | CRITICAL
deriving DecidableEq

open TrafficDensity

/-- Mirrors `TRAFFIC_DENSITIES = ["LOW", "MODERATE", "HIGH", "CRITICAL"]`. -/
def TRAFFIC_DENSITIES : List TrafficDensity := [LOW, MODERATE, HIGH, CRITICAL]

/-- Position of a density in `TRAFFIC_DENSITIES` (the severity order). -/
def sevIndex (d : TrafficDensity) : ℕ := TRAFFIC_DENSITIES.indexOf d

/-- Randomness consumed by one `predict_traffic` call:
`jitter` is the `random.uniform(-0.05, 0.05)` draw, `r1` the 20%-gate
`random.random()` draw, `r2` the direction `random.random()` draw. -/
structure Draws where
  jitter : ℚ
  r1 : ℚ
  r2 : ℚ

/-- Step 1 of `predict_traffic`: base prediction and confidence by hour. -/
def baseByHour (hour : ℤ) : TrafficDensity × ℚ :=
  if (7 ≤ hour ∧ hour ≤ 9) ∨ (17 ≤ hour ∧ hour ≤ 19) then (HIGH, 0.85)
  else if 22 ≤ hour ∨ hour ≤ 6 then (LOW, 0.80)
  else (MODERATE, 0.75)

/-- Step 2 of `predict_traffic`: day-of-week adjustment. -/
def weekendStep (day_of_week : String) (p : TrafficDensity × ℚ) :
    TrafficDensity × ℚ :=
  if day_of_week ∈ ["Saturday", "Sunday"] then
    ((if p.1 = HIGH then MODERATE else p.1), p.2 - 0.05)
  else p

/-- Step 3 of `predict_traffic`: weather adjustment. -/
def weatherStep (weather : String) (p : TrafficDensity × ℚ) :
    TrafficDensity × ℚ :=
  if weather ∈ ["RAIN", "SNOW", "FOG"] then
    ((if p.1 = LOW then MODERATE else if p.1 = MODERATE then HIGH else p.1),
      p.2 - 0.10)
  else p

/-- Step 4 of `predict_traffic`: historical-data adjustment. -/
def historyStep (historical_data_points : ℤ) (p : TrafficDensity × ℚ) :
    TrafficDensity × ℚ :=
  if historical_data_points > 10 then (p.1, p.2 + 0.05)
  else if historical_data_points < 3 then (p.1, p.2 - 0.10)
  else p

/-- Steps 1-4 of `predict_traffic`: the deterministic part, before the
stochastic jitter and re-classification. -/
def preJitter (hour : ℤ) (day_of_week weather : String)
    (historical_data_points : ℤ) : TrafficDensity × ℚ :=
  historyStep historical_data_points
    (weatherStep weather (weekendStep day_of_week (baseByHour hour)))

/-- The 20%-chance re-classification block of `predict_traffic`:
`if random.random() < 0.2: ... if random.random() < 0.5 and current_index > 0:
step down; elif current_index < 3: step up`. -/
def reclassify (r1 r2 : ℚ) (d : TrafficDensity) : TrafficDensity :=
  if r1 < 0.2 then
    let current_index := TRAFFIC_DENSITIES.indexOf d
    if r2 < 0.5 ∧ current_index > 0 then
      TRAFFIC_DENSITIES.getD (current_index - 1) d
    else if current_index < TRAFFIC_DENSITIES.length - 1 then
      TRAFFIC_DENSITIES.getD (current_index + 1) d
    else d
  else d

/-- `predict_traffic(lat, lon, hour, day_of_week, weather,
historical_data_points)` with the randomness stream made explicit. -/
def predict_traffic (lat lon : ℚ) (hour : ℤ) (day_of_week weather : String)
    (historical_data_points : ℤ) (dr : Draws) : TrafficDensity × ℚ :=
  let p := preJitter hour day_of_week weather historical_data_points
  let final_confidence := max 0.5 (min 0.95 (p.2 + dr.jitter))
  (reclassify dr.r1 dr.r2 p.1, final_confidence)

/-- C1: for every context and every sequence of randomness draws, the
confidence returned by `predict_traffic` lies in the closed interval
[0.5, 0.95]. -/
theorem predict_confidence_bounds (lat lon : ℚ) (hour : ℤ)
    (day_of_week weather : String) (historical_data_points : ℤ) (dr : Draws) :
    0.5 ≤ (predict_traffic lat lon hour day_of_week weather
        historical_data_points dr).2 ∧
    (predict_traffic lat lon hour day_of_week weather
        historical_data_points dr).2 ≤ 0.95 := by
  unfold predict_traffic
  refine ⟨le_max_left _ _, max_le (by norm_num) ?_⟩
  exact le_trans (min_le_left _ _) (by norm_num)

/-- C2 counterexample: the re-classification fires (first draw 0 < 0.2) and
the down direction is chosen (second draw 0 < 0.5) while the density is
already LOW, yet the density is not left unchanged: the code falls through
to the up branch and returns MODERATE.  Context: hour 23 gives base LOW,
Monday/CLEAR/history 5 leave it LOW before the stochastic steps. -/
theorem reclassify_low_down_counterexample :
    (0 : ℚ) < 0.2 ∧ (0 : ℚ) < 0.5 ∧
    (predict_traffic 16.5062 80.6480 23 "Monday" "CLEAR" 5
        ⟨0, 0, 0⟩).1 = MODERATE ∧
    (predict_traffic 16.5062 80.6480 23 "Monday" "CLEAR" 5
        ⟨0, 0, 0⟩).1 ≠ LOW := by
  have h : preJitter 23 "Monday" "CLEAR" 5 = (LOW, 0.80) := by
    simp [preJitter, historyStep, weatherStep, weekendStep, baseByHour]
  refine ⟨by norm_num, by norm_num, ?_, ?_⟩ <;>
      rw [predict_traffic, h] <;>
      norm_num [reclassify, TRAFFIC_DENSITIES] <;>
    decide

/-- C2 amended: when the re-classification fires (first draw < 0.2), a chosen
and available down direction moves the density one step down; in every other
case the density moves one step up when it is not CRITICAL — including the
case where down was chosen at LOW, which falls through to the up branch —
and only CRITICAL with the up fallback is a no-op. -/
theorem reclassify_steps (r1 r2 : ℚ) (h1 : r1 < 0.2) :
    (r2 < 0.5 →
      reclassify r1 r2 LOW = MODERATE ∧
      reclassify r1 r2 MODERATE = LOW ∧
      reclassify r1 r2 HIGH = MODERATE ∧
      reclassify r1 r2 CRITICAL = HIGH) ∧
    (¬ r2 < 0.5 →
      reclassify r1 r2 LOW = MODERATE ∧
      reclassify r1 r2 MODERATE = HIGH ∧
      reclassify r1 r2 HIGH = CRITICAL ∧
      reclassify r1 r2 CRITICAL = CRITICAL) := by
  constructor <;> intro h2 <;>
    refine ⟨?_, ?_, ?_, ?_⟩ <;>
    simp [reclassify, TRAFFIC_DENSITIES, h1, h2]

/-- Witness for `reclassify_steps` at r1 = 0, r2 = 0. -/
theorem reclassify_steps_witness :
    (0 : ℚ) < 0.2 ∧
    reclassify 0 0 MODERATE = LOW ∧ reclassify 0 0 LOW = MODERATE :=
  ⟨by norm_num,
    ((reclassify_steps 0 0 (by norm_num)).1 (by norm_num)).2.1,
    ((reclassify_steps 0 0 (by norm_num)).1 (by norm_num)).1⟩

/-- C7: for adverse weather (RAIN, SNOW, FOG) the weather step escalates
LOW to MODERATE and MODERATE to HIGH, leaves HIGH and CRITICAL unchanged,
subtracts exactly 0.10 from the confidence, and never lowers the severity;
for non-adverse weather it changes nothing. -/
theorem weather_adjustment (weather : String) (d : TrafficDensity) (c : ℚ) :
    (weather ∈ ["RAIN", "SNOW", "FOG"] →
      weatherStep weather (LOW, c) = (MODERATE, c - 0.10) ∧
      weatherStep weather (MODERATE, c) = (HIGH, c - 0.10) ∧
      weatherStep weather (HIGH, c) = (HIGH, c - 0.10) ∧
      weatherStep weather (CRITICAL, c) = (CRITICAL, c - 0.10) ∧
      sevIndex d ≤ sevIndex (weatherStep weather (d, c)).1) ∧
    (weather ∉ ["RAIN", "SNOW", "FOG"] →
      weatherStep weather (d, c) = (d, c)) := by
  constructor <;> intro h
  · refine ⟨?_, ?_, ?_, ?_, ?_⟩ <;>
      cases d <;> simp [weatherStep, h, sevIndex, TRAFFIC_DENSITIES]
  · simp [weatherStep, h]

/-- Witness for `weather_adjustment` at weather RAIN, density LOW,
confidence 0.75. -/
theorem weather_adjustment_witness :
    "RAIN" ∈ ["RAIN", "SNOW", "FOG"] ∧
    weatherStep "RAIN" (LOW, 0.75) = (MODERATE, 0.75 - 0.10) :=
  ⟨by simp, ((weather_adjustment "RAIN" LOW 0.75).1 (by simp)).1⟩

/-- C5: rush hour, weekday, CLEAR weather and history count in [3,10] give
pre-jitter density HIGH with pre-jitter confidence exactly 0.85; and the
end-to-end example (hour 8, Monday, CLEAR, 12 historical points, zero
jitter, re-classification gate not taken) returns (HIGH, 0.90). -/
theorem rush_weekday_clear_high (hour : ℤ) (day : String) (hist : ℤ)
    (hrush : (7 ≤ hour ∧ hour ≤ 9) ∨ (17 ≤ hour ∧ hour ≤ 19))
    (hday : day ∉ ["Saturday", "Sunday"])
    (hhist : 3 ≤ hist ∧ hist ≤ 10) :
    preJitter hour day "CLEAR" hist = (HIGH, 0.85) ∧
    predict_traffic 16.5062 80.6480 8 "Monday" "CLEAR" 12 ⟨0, 1, 0⟩
      = (HIGH, 0.90) := by
  constructor
  · have h1 : baseByHour hour = (HIGH, 0.85) := by
      rw [baseByHour, if_pos hrush]
    have h2 : weekendStep day (HIGH, 0.85) = (HIGH, 0.85) := by
      rw [weekendStep, if_neg hday]
    have h3 : weatherStep "CLEAR" (HIGH, 0.85) = (HIGH, 0.85) := by
      rw [weatherStep, if_neg (by decide)]
    have h4 : historyStep hist (HIGH, 0.85) = (HIGH, 0.85) := by
      rw [historyStep, if_neg (by omega), if_neg (by omega)]
    rw [preJitter, h1, h2, h3, h4]
  · have h : preJitter 8 "Monday" "CLEAR" 12 = (HIGH, 0.90) := by
      simp [preJitter, historyStep, weatherStep, weekendStep, baseByHour]
      norm_num
    rw [predict_traffic, h]
    norm_num [reclassify]

/-- Witness for `rush_weekday_clear_high` at hour 8, Monday, history 5. -/
theorem rush_weekday_clear_high_witness :
    ((7 ≤ (8 : ℤ) ∧ (8 : ℤ) ≤ 9) ∨ (17 ≤ (8 : ℤ) ∧ (8 : ℤ) ≤ 19)) ∧
    "Monday" ∉ ["Saturday", "Sunday"] ∧
    preJitter 8 "Monday" "CLEAR" 5 = (HIGH, 0.85) :=
  ⟨Or.inl (by norm_num), by decide,
    (rush_weekday_clear_high 8 "Monday" 5 (Or.inl (by norm_num)) (by decide)
      (by norm_num)).1⟩

/-- C6: for a weekend day, a HIGH hour-based base density is de-escalated to
MODERATE by the day-of-week step, and the pre-jitter confidence is exactly
0.05 lower than for the identical context with a weekday day-of-week,
whether or not the de-escalation occurred. -/
theorem weekend_adjustment (hour : ℤ) (weather : String) (hist : ℤ)
    (wkend wday : String) (hw : wkend ∈ ["Saturday", "Sunday"])
    (hd : wday ∉ ["Saturday", "Sunday"]) :
    ((baseByHour hour).1 = HIGH →
      (weekendStep wkend (baseByHour hour)).1 = MODERATE) ∧
    (preJitter hour wkend weather hist).2 =
      (preJitter hour wday weather hist).2 - 0.05 := by
  have e1 : ∀ p : TrafficDensity × ℚ, (weekendStep wkend p).2 = p.2 - 0.05 := by
    intro p; rw [weekendStep, if_pos hw]
  have e2 : ∀ p : TrafficDensity × ℚ, weekendStep wday p = p := by
    intro p; rw [weekendStep, if_neg hd]
  have e3 : ∀ p q : TrafficDensity × ℚ, p.2 = q.2 - 0.05 →
      (weatherStep weather p).2 = (weatherStep weather q).2 - 0.05 := by
    intro p q hpq
    rw [weatherStep, weatherStep]
    split_ifs <;> simp [hpq] <;> ring
  have e4 : ∀ p q : TrafficDensity × ℚ, p.2 = q.2 - 0.05 →
      (historyStep hist p).2 = (historyStep hist q).2 - 0.05 := by
    intro p q hpq
    rw [historyStep, historyStep]
    split_ifs <;> simp [hpq] <;> ring
  constructor
  · intro hb
    rw [weekendStep, if_pos hw]
    simp [hb]
  · rw [preJitter, preJitter]
    apply e4
    apply e3
    rw [e1, e2]

/-- Witness for `weekend_adjustment` at hour 8, Saturday vs Monday. -/
theorem weekend_adjustment_witness :
    "Saturday" ∈ ["Saturday", "Sunday"] ∧
    "Monday" ∉ ["Saturday", "Sunday"] ∧
    ((baseByHour 8).1 = HIGH →
      (weekendStep "Saturday" (baseByHour 8)).1 = MODERATE) ∧
    (preJitter 8 "Saturday" "CLEAR" 0).2 =
      (preJitter 8 "Monday" "CLEAR" 0).2 - 0.05 :=
  ⟨by decide, by decide,
    (weekend_adjustment 8 "CLEAR" 0 "Saturday" "Monday" (by decide)
      (by decide)).1,
    (weekend_adjustment 8 "CLEAR" 0 "Saturday" "Monday" (by decide)
      (by decide)).2⟩

/-- An inbound request to the `/predict` endpoint: `none` marks a field that
is absent from the request body.  `weather` defaults to CLEAR and
`historicalDataPoints` to 0 via `.get`. -/
structure PredictRequest where
  lat : Option ℚ
  lon : Option ℚ
  hour : Option ℤ
  dayOfWeek : Option String
  weather : Option String
  historicalDataPoints : Option ℤ
  id : Option ℤ
deriving DecidableEq

/-- The `/predict` handler: checks the required fields in order
(lat, lon, hour, dayOfWeek) and returns a 400 error naming the first
missing one; otherwise it calls `predict_traffic`. -/
def predict (req : PredictRequest) (dr : Draws) :
    Except String (TrafficDensity × ℚ) :=
  if req.lat = none then Except.error "Missing required field: lat"
  else if req.lon = none then Except.error "Missing required field: lon"
  else if req.hour = none then Except.error "Missing required field: hour"
  else if req.dayOfWeek = none then
    Except.error "Missing required field: dayOfWeek"
  else
    Except.ok (predict_traffic (req.lat.getD 0) (req.lon.getD 0)
      (req.hour.getD 0) (req.dayOfWeek.getD "") (req.weather.getD "CLEAR")
      (req.historicalDataPoints.getD 0) dr)

/-- A request whose hour 24 is outside the domain [0, 23]. -/
def hour24Req : PredictRequest :=
  ⟨some 16.5062, some 80.6480, some 24, some "Monday", none, none, none⟩

/-- C4 counterexample: a request with hour = 24 (outside [0, 23]) is not
rejected: the handler invokes the classifier, which treats 22 ≤ hour as
night time and returns a successful LOW prediction. -/
theorem predict_hour_out_of_range_counterexample :
    predict hour24Req ⟨0, 1, 0⟩ = Except.ok (LOW, 0.70) := by
  have h : preJitter 24 "Monday" "CLEAR" 0 = (LOW, 0.70) := by
    simp [preJitter, historyStep, weatherStep, weekendStep, baseByHour]
    norm_num
  simp only [predict, hour24Req]
  norm_num
  rw [predict_traffic, h]
  norm_num [reclassify]
  simp

/-- C4 amended: a request missing a required field is rejected with a client
error naming the first missing field in the order lat, lon, hour, dayOfWeek,
and the classifier is not invoked (the error result carries no prediction);
an out-of-domain hour is not validated. -/
theorem predict_missing_field_rejected (req : PredictRequest) (dr : Draws) :
    (req.lat = none →
      predict req dr = Except.error "Missing required field: lat") ∧
    (req.lat ≠ none → req.lon = none →
      predict req dr = Except.error "Missing required field: lon") ∧
    (req.lat ≠ none → req.lon ≠ none → req.hour = none →
      predict req dr = Except.error "Missing required field: hour") ∧
    (req.lat ≠ none → req.lon ≠ none → req.hour ≠ none →
      req.dayOfWeek = none →
      predict req dr = Except.error "Missing required field: dayOfWeek") := by
  refine ⟨?_, ?_, ?_, ?_⟩ <;> intros <;> simp [predict, *]

/-- A request body with every field absent. -/
def emptyReq : PredictRequest := ⟨none, none, none, none, none, none, none⟩

/-- Witness for `predict_missing_field_rejected` on the empty request. -/
theorem predict_missing_field_rejected_witness :
    emptyReq.lat = none ∧
    predict emptyReq ⟨0, 0, 0⟩ = Except.error "Missing required field: lat" :=
  ⟨rfl, (predict_missing_field_rejected emptyReq ⟨0, 0, 0⟩).1 rfl⟩

/-- One entry of the `results` array built by `batch_predict`; the id
defaults to `len(results)` at the time the entry is appended. -/
structure BatchItem where
  id : ℤ
  prediction : TrafficDensity
  confidence : ℚ
deriving DecidableEq

/-- The loop body of `/batch/predict`: items are processed in order inside a
single try block, so the first item whose required key is absent raises a
KeyError that aborts the whole loop; `k` is `len(results)` so far.
`dr` supplies the randomness for the call on item `k`. -/
def batchLoop (dr : ℕ → Draws) :
    List PredictRequest → ℕ → Except String (List BatchItem)
  | [], _ => Except.ok []
  | req :: rest, k =>
    match req.lat with
    | none => Except.error "KeyError: lat"
    | some lat =>
      match req.lon with
      | none => Except.error "KeyError: lon"
      | some lon =>
        match req.hour with
        | none => Except.error "KeyError: hour"
        | some hour =>
          match req.dayOfWeek with
          | none => Except.error "KeyError: dayOfWeek"
          | some dow =>
            let pc := predict_traffic lat lon hour dow
              (req.weather.getD "CLEAR") (req.historicalDataPoints.getD 0)
              (dr k)
            match batchLoop dr rest (k + 1) with
            | Except.error e => Except.error e
            | Except.ok results =>
              Except.ok (⟨req.id.getD (k : ℤ), pc.1, pc.2⟩ :: results)

/-- The `/batch/predict` handler: empty request list is a 400 error,
otherwise the loop runs inside one try/except, so any failure yields a
single batch-level error and no per-item results. -/
def batch_predict (dr : ℕ → Draws) (reqs : List PredictRequest) :
    Except String (List BatchItem) :=
  if reqs = [] then Except.error "No prediction requests provided"
  else batchLoop dr reqs 0

/-- A complete, valid batch item (hour 23, Monday, defaults elsewhere). -/
def goodReq : PredictRequest :=
  ⟨some 16.5062, some 80.6480, some 23, some "Monday", none, none, none⟩

/-- A batch item missing every required field. -/
def badReq : PredictRequest := ⟨none, none, none, none, none, none, none⟩

/-- A fixed randomness stream: zero jitter, re-classification gate closed. -/
def constDraws : ℕ → Draws := fun _ => ⟨0, 1, 0⟩

/-- C3 counterexample: the valid item alone yields its result, but putting a
failing sibling after it makes the whole batch return a single error and
the valid item no longer yields any result — one item's failure does abort
its siblings. -/
theorem batch_abort_counterexample :
    batch_predict constDraws [goodReq] =
      Except.ok [{ id := 0, prediction := LOW, confidence := 0.70 }] ∧
    batch_predict constDraws [goodReq, badReq] =
      Except.error "KeyError: lat" := by
  have h : preJitter 23 "Monday" "CLEAR" 0 = (LOW, 0.70) := by
    simp [preJitter, historyStep, weatherStep, weekendStep, baseByHour]
    norm_num
  have h2 : predict_traffic 16.5062 80.6480 23 "Monday" "CLEAR" 0 ⟨0, 1, 0⟩
      = (LOW, 0.70) := by
    rw [predict_traffic, h]
    norm_num [reclassify]
  constructor
  · simp [batch_predict, batchLoop, goodReq, constDraws, h2]
  · simp [batch_predict, batchLoop, goodReq, badReq, constDraws]

/-- If a request with a missing required field occurs anywhere in the list,
the whole batch loop returns an error. -/
lemma batchLoop_error_of_missing (dr : ℕ → Draws) (r : PredictRequest)
    (hmiss : r.lat = none ∨ r.lon = none ∨ r.hour = none ∨
      r.dayOfWeek = none) :
    ∀ (reqs : List PredictRequest) (k : ℕ), r ∈ reqs →
      ∃ e, batchLoop dr reqs k = Except.error e := by
  intro reqs
  induction reqs with
  | nil => intro k hk; exact absurd hk (List.not_mem_nil r)
  | cons req rest ih =>
    intro k hk
    cases hlat : req.lat with
    | none => exact ⟨"KeyError: lat", by simp [batchLoop, hlat]⟩
    | some lat =>
      cases hlon : req.lon with
      | none => exact ⟨"KeyError: lon", by simp [batchLoop, hlat, hlon]⟩
      | some lon =>
        cases hhour : req.hour with
        | none =>
          exact ⟨"KeyError: hour", by simp [batchLoop, hlat, hlon, hhour]⟩
        | some hour =>
          cases hdow : req.dayOfWeek with
          | none =>
            exact ⟨"KeyError: dayOfWeek",
              by simp [batchLoop, hlat, hlon, hhour, hdow]⟩
          | some dow =>
            rcases List.mem_cons.mp hk with heq | hmem
            · subst heq
              rcases hmiss with hm | hm | hm | hm <;> simp_all
            · obtain ⟨e, he⟩ := ih (k + 1) hmem
              exact ⟨e, by simp [batchLoop, hlat, hlon, hhour, hdow, he]⟩

/-- C3 amended: one item's failure aborts the entire batch: if any item in
the list is missing a required field, `batch_predict` returns a single
batch-level error, and no sibling item yields a result. -/
theorem batch_failure_aborts (dr : ℕ → Draws) (reqs : List PredictRequest)
    (h : ∃ r ∈ reqs, r.lat = none ∨ r.lon = none ∨ r.hour = none ∨
      r.dayOfWeek = none) :
    ∃ e, batch_predict dr reqs = Except.error e := by
  obtain ⟨r, hr, hmiss⟩ := h
  have hne : ¬ reqs = [] := by
    intro he
    subst he
    exact (List.not_mem_nil r) hr
  rw [batch_predict, if_neg hne]
  exact batchLoop_error_of_missing dr r hmiss reqs 0 hr

/-- Witness for `batch_failure_aborts` on a one-element batch whose item is
missing its required fields. -/
theorem batch_failure_aborts_witness :
    (badReq ∈ [goodReq, badReq] ∧ badReq.lat = none) ∧
    ∃ e, batch_predict constDraws [goodReq, badReq] = Except.error e :=
  ⟨⟨by simp, rfl⟩,
    batch_failure_aborts constDraws [goodReq, badReq]
      ⟨badReq, by simp, Or.inl rfl⟩⟩

/-- Python `round` to an integer: nearest integer, ties to even. -/
def py_round_int (y : ℚ) : ℤ :=
  if y - Int.floor y > 1/2 then Int.floor y + 1
  else if y - Int.floor y < 1/2 then Int.floor y
  else if Int.floor y % 2 = 0 then Int.floor y else Int.floor y + 1

/-- Python `round(x, 1)`: one decimal place. -/
def round1 (x : ℚ) : ℚ := (py_round_int (10 * x) : ℚ) / 10

lemma py_round_int_bounds (a b : ℤ) (y : ℚ) (ha : (a : ℚ) ≤ y)
    (hb : y ≤ (b : ℚ)) : a ≤ py_round_int y ∧ py_round_int y ≤ b := by
  have hfa : a ≤ Int.floor y := Int.le_floor.mpr ha
  have hfb : Int.floor y ≤ b := by
    have h := (Int.floor_le y).trans hb
    exact_mod_cast h
  have hstep : ((Int.floor y : ℚ) < y) → Int.floor y + 1 ≤ b := by
    intro hlt
    have h1 : ((Int.floor y : ℚ)) < (b : ℚ) := lt_of_lt_of_le hlt hb
    have h2 : Int.floor y < b := by exact_mod_cast h1
    omega
  unfold py_round_int
  split_ifs with h1 h2 h3
  · refine ⟨by omega, hstep ?_⟩
    have hp : (0 : ℚ) < y - Int.floor y := lt_trans (by norm_num) h1
    linarith
  · exact ⟨hfa, hfb⟩
  · exact ⟨hfa, hfb⟩
  · refine ⟨by omega, hstep ?_⟩
    have h4 : y - Int.floor y = 1/2 := le_antisymm (not_lt.mp h1) (not_lt.mp h2)
    linarith

lemma round1_bounds (a b : ℤ) (x : ℚ) (ha : (a : ℚ) ≤ x) (hb : x ≤ (b : ℚ)) :
    (a : ℚ) ≤ round1 x ∧ round1 x ≤ (b : ℚ) := by
  have h := py_round_int_bounds (10 * a) (10 * b) (10 * x)
    (by push_cast; linarith) (by push_cast; linarith)
  have h1 : ((10 * a : ℤ) : ℚ) ≤ (py_round_int (10 * x) : ℚ) := by
    exact_mod_cast h.1
  have h2 : (py_round_int (10 * x) : ℚ) ≤ ((10 * b : ℤ) : ℚ) := by
    exact_mod_cast h.2
  unfold round1
  push_cast at h1 h2
  constructor <;> linarith

/-- `random.randint(lo, hi)` (inclusive) with its draw made explicit: any
natural draw is mapped into the inclusive range. -/
def randint (lo hi : ℕ) (draw : ℕ) : ℕ := lo + draw % (hi - lo + 1)

lemma randint_bounds (lo hi draw : ℕ) (h : lo ≤ hi) :
    lo ≤ randint lo hi draw ∧ randint lo hi draw ≤ hi := by
  unfold randint
  have hm : draw % (hi - lo + 1) < hi - lo + 1 := Nat.mod_lt _ (Nat.succ_pos _)
  omega

/-- `random.uniform(a, b)` = `a + (b - a) * random()`, with the `random()`
draw `u` made explicit. -/
def py_uniform (a b u : ℚ) : ℚ := a + (b - a) * u

lemma py_uniform_bounds (a b u : ℚ) (hab : a ≤ b) (hu0 : 0 ≤ u)
    (hu1 : u ≤ 1) : a ≤ py_uniform a b u ∧ py_uniform a b u ≤ b := by
  unfold py_uniform
  constructor <;> nlinarith

/-- The `density_ranges` table of `generate_vehicle_count`. -/
def density_count_range : TrafficDensity → ℕ × ℕ
  | LOW => (5, 20)
  | MODERATE => (21, 50)
  | HIGH => (51, 80)
  | CRITICAL => (81, 120)

/-- `generate_vehicle_count(density)` with its draw made explicit. -/
def generate_vehicle_count (density : TrafficDensity) (draw : ℕ) : ℕ :=
  randint (density_count_range density).1 (density_count_range density).2 draw

/-- The `speed_ranges` table of `generate_average_speed`. -/
def density_speed_range : TrafficDensity → ℚ × ℚ
  | LOW => (40, 60)
  | MODERATE => (20, 40)
  | HIGH => (10, 25)
  | CRITICAL => (2, 15)

/-- `generate_average_speed(density)` = `round(random.uniform(lo, hi), 1)`
with the `random()` draw `u` made explicit. -/
def generate_average_speed (density : TrafficDensity) (u : ℚ) : ℚ :=
  round1 (py_uniform (density_speed_range density).1
    (density_speed_range density).2 u)

/-- C8: for every density and every draw, the vehicle count lies in the
inclusive table range and the average speed lies in the inclusive table
range and is a multiple of one tenth (rounded to one decimal place); in
particular CRITICAL gives count in [81,120] and speed in [2,15]. -/
theorem synthesizer_bounds (d : TrafficDensity) (draw : ℕ) (u : ℚ)
    (hu0 : 0 ≤ u) (hu1 : u < 1) :
    ((density_count_range d).1 ≤ generate_vehicle_count d draw ∧
      generate_vehicle_count d draw ≤ (density_count_range d).2) ∧
    ((density_speed_range d).1 ≤ generate_average_speed d u ∧
      generate_average_speed d u ≤ (density_speed_range d).2) ∧
    (∃ k : ℤ, generate_average_speed d u = (k : ℚ) / 10) ∧
    (d = CRITICAL → 81 ≤ generate_vehicle_count d draw ∧
      generate_vehicle_count d draw ≤ 120 ∧
      2 ≤ generate_average_speed d u ∧ generate_average_speed d u ≤ 15) := by
  have hcount : (density_count_range d).1 ≤ generate_vehicle_count d draw ∧
      generate_vehicle_count d draw ≤ (density_count_range d).2 := by
    cases d <;>
      exact randint_bounds _ _ draw (by norm_num [density_count_range])
  have hsc : ∀ a b : ℤ, (a : ℚ) ≤ (b : ℚ) →
      (a : ℚ) ≤ round1 (py_uniform a b u) ∧
        round1 (py_uniform a b u) ≤ (b : ℚ) := by
    intro a b hab
    have h := py_uniform_bounds _ _ u hab hu0 (le_of_lt hu1)
    exact round1_bounds a b _ h.1 h.2
  have hspeed : (density_speed_range d).1 ≤ generate_average_speed d u ∧
      generate_average_speed d u ≤ (density_speed_range d).2 := by
    cases d <;> simp only [generate_average_speed, density_speed_range]
    · exact ⟨by exact_mod_cast (hsc 40 60 (by norm_num)).1,
        by exact_mod_cast (hsc 40 60 (by norm_num)).2⟩
    · exact ⟨by exact_mod_cast (hsc 20 40 (by norm_num)).1,
        by exact_mod_cast (hsc 20 40 (by norm_num)).2⟩
    · exact ⟨by exact_mod_cast (hsc 10 25 (by norm_num)).1,
        by exact_mod_cast (hsc 10 25 (by norm_num)).2⟩
    · exact ⟨by exact_mod_cast (hsc 2 15 (by norm_num)).1,
        by exact_mod_cast (hsc 2 15 (by norm_num)).2⟩
  refine ⟨hcount, hspeed, ⟨py_round_int (10 * py_uniform
    (density_speed_range d).1 (density_speed_range d).2 u), rfl⟩, ?_⟩
  intro hd
  subst hd
  refine ⟨hcount.1, hcount.2, ?_, ?_⟩
  · simpa [density_speed_range] using hspeed.1
  · simpa [density_speed_range] using hspeed.2

/-- Witness for `synthesizer_bounds` at CRITICAL, draw 7, u = 1/2. -/
theorem synthesizer_bounds_witness :
    (0 : ℚ) ≤ 1/2 ∧ (1/2 : ℚ) < 1 ∧
    (81 ≤ generate_vehicle_count CRITICAL 7 ∧
      generate_vehicle_count CRITICAL 7 ≤ 120 ∧
      2 ≤ generate_average_speed CRITICAL (1/2) ∧
      generate_average_speed CRITICAL (1/2) ≤ 15) :=
  ⟨by norm_num, by norm_num,
    (synthesizer_bounds CRITICAL 7 (1/2) (by norm_num) (by norm_num)).2.2.2 rfl⟩

/-- Mirrors `WEATHER_CONDITIONS = ["CLEAR", "RAIN", "FOG", "CLOUDY"]` of the
sample-data generator. -/
def WEATHER_CONDITIONS : List String := ["CLEAR", "RAIN", "FOG", "CLOUDY"]

/-- `random.choices(items, weights)[0]`: walks the weight list subtracting
each weight, exactly as bisect over cumulative weights does for a draw
`r = random() * total` in [0, total). -/
def weightedChoice : List TrafficDensity → List ℚ → ℚ → TrafficDensity
  | [], _, _ => LOW
  | d :: _, [], _ => d
  | d :: ds, w :: ws, r => if r < w then d else weightedChoice ds ws (r - w)

/-- `generate_traffic_density_by_hour(hour)` with the `random()` draw `u`
made explicit; each weight vector sums to 100, so the draw used by
`random.choices` is `u * 100`. -/
def generate_traffic_density_by_hour (hour : ℕ) (u : ℚ) : TrafficDensity :=
  if (7 ≤ hour ∧ hour ≤ 9) ∨ (17 ≤ hour ∧ hour ≤ 19) then
    weightedChoice TRAFFIC_DENSITIES [5, 15, 50, 30] (u * 100)
  else if 22 ≤ hour ∨ hour ≤ 6 then
    weightedChoice TRAFFIC_DENSITIES [70, 25, 5, 0] (u * 100)
  else
    weightedChoice TRAFFIC_DENSITIES [20, 50, 25, 5] (u * 100)

/-- The weekend adjustment of `generate_traffic_data`; `weekday` follows
Python (`Monday = 0`, ..., `Saturday = 5`, `Sunday = 6`), so the weekend
test `timestamp.weekday() >= 5` becomes `5 ≤ weekday`. -/
def weekendDampen (weekday : ℕ) (d : TrafficDensity) (r : ℚ) :
    TrafficDensity :=
  if 5 ≤ weekday then
    if d = CRITICAL then HIGH
    else if d = HIGH ∧ r < 0.5 then MODERATE
    else d
  else d

/-- The weather impact of `generate_traffic_data`. -/
def weatherImpact (weather : String) (d : TrafficDensity) (r : ℚ) :
    TrafficDensity :=
  if weather ∈ ["RAIN", "FOG"] then
    if d = LOW then MODERATE
    else if d = MODERATE ∧ r < 0.3 then HIGH
    else d
  else d

/-- The fields of a Python datetime that `generate_traffic_data` reads. -/
structure Timestamp where
  hour : ℕ
  weekday : ℕ

/-- A location entry of the `CITIES` table. -/
structure Location where
  name : String
  lat : ℚ
  lon : ℚ

/-- Randomness consumed by one `generate_traffic_data` call, one field per
call site of the Python random module. -/
structure GenDraws where
  u_density : ℚ
  r_weekend : ℚ
  weather_ix : ℕ
  r_weather : ℚ
  jlat : ℚ
  jlon : ℚ
  count_draw : ℕ
  u_speed : ℚ

/-- The observation dict returned by `generate_traffic_data`; the
`timestamp` strftime string is not modeled. -/
structure TrafficObservation where
  location : String
  latitude : ℚ
  longitude : ℚ
  trafficDensity : TrafficDensity
  vehicleCount : ℕ
  averageSpeed : ℚ
  weatherCondition : String

/-- `generate_traffic_data(location, timestamp)` with the randomness
stream made explicit; `random.choice(WEATHER_CONDITIONS)` is modeled by an
index draw taken modulo the list length. -/
def generate_traffic_data (location : Location) (timestamp : Timestamp)
    (g : GenDraws) : TrafficObservation :=
  let density0 := generate_traffic_density_by_hour timestamp.hour g.u_density
  let density1 := weekendDampen timestamp.weekday density0 g.r_weekend
  let weather :=
    WEATHER_CONDITIONS.getD (g.weather_ix % WEATHER_CONDITIONS.length) "CLEAR"
  let density := weatherImpact weather density1 g.r_weather
  ⟨location.name, location.lat + g.jlat, location.lon + g.jlon, density,
    generate_vehicle_count density g.count_draw,
    generate_average_speed density g.u_speed, weather⟩

/-- C9: on a weekend timestamp, the weekend-dampening step of
`generate_traffic_data` turns CRITICAL into HIGH, turns HIGH into MODERATE
exactly when the draw is below 0.5 (otherwise leaves it HIGH), and changes
no other density. -/
theorem weekend_dampening (ts : Timestamp) (d : TrafficDensity) (r : ℚ)
    (hw : 5 ≤ ts.weekday) :
    weekendDampen ts.weekday CRITICAL r = HIGH ∧
    (r < 0.5 → weekendDampen ts.weekday HIGH r = MODERATE) ∧
    (¬ r < 0.5 → weekendDampen ts.weekday HIGH r = HIGH) ∧
    (d ≠ HIGH → d ≠ CRITICAL → weekendDampen ts.weekday d r = d) := by
  refine ⟨?_, ?_, ?_, ?_⟩ <;> intros <;> simp [weekendDampen, hw, *]

/-- Witness for `weekend_dampening` at a Saturday 11 pm timestamp. -/
theorem weekend_dampening_witness :
    5 ≤ (Timestamp.mk 23 5).weekday ∧
    weekendDampen (Timestamp.mk 23 5).weekday CRITICAL 0 = HIGH ∧
    weekendDampen (Timestamp.mk 23 5).weekday LOW 0 = LOW :=
  ⟨by norm_num,
    (weekend_dampening (Timestamp.mk 23 5) LOW 0 (by norm_num)).1,
    (weekend_dampening (Timestamp.mk 23 5) LOW 0 (by norm_num)).2.2.2
      (by decide) (by decide)⟩

lemma weekendDampen_ne_critical (wd : ℕ) (d : TrafficDensity) (r : ℚ)
    (hd : d ≠ CRITICAL) : weekendDampen wd d r ≠ CRITICAL := by
  unfold weekendDampen
  split_ifs <;> first | decide | exact hd

lemma weatherImpact_ne_critical (w : String) (d : TrafficDensity) (r : ℚ)
    (hd : d ≠ CRITICAL) : weatherImpact w d r ≠ CRITICAL := by
  unfold weatherImpact
  split_ifs <;> first | decide | exact hd

/-- C10: at night (hour in [22,23] or [0,6]), for every randomness draw
(`u_density` being the `random()` value in [0,1)), the observation produced
by `generate_traffic_data` never has density CRITICAL: the night weight
vector gives CRITICAL weight 0 and the later steps cannot reach CRITICAL
from below. -/
theorem night_never_critical (loc : Location) (ts : Timestamp) (g : GenDraws)
    (hnight : 22 ≤ ts.hour ∨ ts.hour ≤ 6)
    (hu0 : 0 ≤ g.u_density) (hu1 : g.u_density < 1) :
    (generate_traffic_data loc ts g).trafficDensity ≠ CRITICAL := by
  have hnr : ¬ ((7 ≤ ts.hour ∧ ts.hour ≤ 9) ∨
      (17 ≤ ts.hour ∧ ts.hour ≤ 19)) := by omega
  have h1 : generate_traffic_density_by_hour ts.hour g.u_density =
      weightedChoice TRAFFIC_DENSITIES [70, 25, 5, 0] (g.u_density * 100) := by
    rw [generate_traffic_density_by_hour, if_neg hnr, if_pos hnight]
  have hr : g.u_density * 100 < 100 := by nlinarith
  have h2 : weightedChoice TRAFFIC_DENSITIES [70, 25, 5, 0]
      (g.u_density * 100) ≠ CRITICAL := by
    simp only [TRAFFIC_DENSITIES, weightedChoice]
    split_ifs <;> first | decide | (exfalso; linarith)
  simp only [generate_traffic_data]
  apply weatherImpact_ne_critical
  apply weekendDampen_ne_critical
  rw [h1]
  exact h2

/-- Witness for `night_never_critical` at hour 23 with draw 1/2. -/
theorem night_never_critical_witness :
    (22 ≤ (Timestamp.mk 23 0).hour ∨ (Timestamp.mk 23 0).hour ≤ 6) ∧
    (0 : ℚ) ≤ 1/2 ∧ (1/2 : ℚ) < 1 ∧
    (generate_traffic_data ⟨"Benz Circle", 16.5070, 80.6490⟩
      (Timestamp.mk 23 0)
      ⟨1/2, 0, 0, 0, 0, 0, 0, 0⟩).trafficDensity ≠ CRITICAL :=
  ⟨Or.inl (by norm_num), by norm_num, by norm_num,
    night_never_critical ⟨"Benz Circle", 16.5070, 80.6490⟩
      (Timestamp.mk 23 0) ⟨1/2, 0, 0, 0, 0, 0, 0, 0⟩
      (Or.inl (by norm_num)) (by norm_num) (by norm_num)⟩

end SmartTraffic
